import Mathlib

/-!
Verification of the translation-server repository: a shallow embedding of the
room directory, participant registry, fan-out router, translation pipeline and
rate limiter, together with theorems about the claimed properties.

Python dicts are modelled as insertion-ordered association lists with String
keys; datetimes as integer epoch seconds; the external Azure translation call
as an oracle outcome (success with some translated string, or one of the
caught failure modes: timeout, request error, response-parse error); websocket
pushes as a boolean oracle per recipient (a failed push is caught and logged
by the source, so only delivery, never control flow, depends on it).
-/

/-- Lookup in an association list, mirroring Python dict.get. -/
def lookupA {α : Type} : List (String × α) → String → Option α
  | [], _ => none
  | (k, v) :: rest, key => if k = key then some v else lookupA rest key

/-- Insert/overwrite in an association list, mirroring Python d[k] = v
(overwrite keeps the key position, a new key is appended). -/
def insertA {α : Type} : List (String × α) → String → α → List (String × α)
  | [], key, v => [(key, v)]
  | (k, w) :: rest, key, v =>
    if k = key then (key, v) :: rest else (k, w) :: insertA rest key v

/-- Delete from an association list, mirroring Python del d[k]. -/
def eraseA {α : Type} : List (String × α) → String → List (String × α)
  | [], _ => []
  | (k, v) :: rest, key =>
    if k = key then eraseA rest key else (k, v) :: eraseA rest key

/-- Python str.upper for the room-code alphabet. -/
def pyUpper (s : String) : String := String.mk (s.data.map Char.toUpper)

/-- app/services/room_manager.py Participant: one connected user in a room. -/
structure Participant where
  user_id : String
  user_name : String
  language : String
  websocket : Nat
  joined_at : Int
  deriving Repr, DecidableEq

/-- app/services/room_manager.py ConversationRoom. -/
structure ConversationRoom where
  room_code : String
  created_at : Int
  participants : List (String × Participant) := []
  is_active : Bool := true
  message_count : Nat := 0
  deriving Repr, DecidableEq

/-- ConversationRoom.get_participant. -/
def ConversationRoom.get_participant (room : ConversationRoom) (user_id : String) :
    Option Participant :=
  lookupA room.participants user_id

/-- ConversationRoom.get_other_participants. -/
def ConversationRoom.get_other_participants (room : ConversationRoom) (user_id : String) :
    List Participant :=
  (room.participants.filter (fun p => p.1 ≠ user_id)).map Prod.snd

/-- ConversationRoom.get_translation_targets: each other participant paired
with (sender language, that participant language). -/
def ConversationRoom.get_translation_targets (room : ConversationRoom) (sender_id : String) :
    List (Participant × String × String) :=
  match room.get_participant sender_id with
  | none => []
  | some sender =>
    (room.get_other_participants sender_id).map (fun p => (p, sender.language, p.language))

/-- RoomManager: the room directory (rooms dict). -/
structure RoomManager where
  rooms : List (String × ConversationRoom) := []
  deriving Repr, DecidableEq

/-- RoomManager.get_room: plain dict lookup, no normalization. -/
def RoomManager.get_room (m : RoomManager) (room_code : String) : Option ConversationRoom :=
  lookupA m.rooms room_code

/-- RoomManager.add_participant: returns the new state and the success flag. -/
def RoomManager.add_participant (m : RoomManager)
    (room_code user_id user_name language : String) (websocket : Nat) (now : Int) :
    RoomManager × Bool :=
  match lookupA m.rooms room_code with
  | none => (m, false)
  | some room =>
    let participant : Participant :=
      { user_id := user_id, user_name := user_name, language := language,
        websocket := websocket, joined_at := now }
    let room2 := { room with participants := insertA room.participants user_id participant }
    ({ rooms := insertA m.rooms room_code room2 }, true)

/-- RoomManager.close_room: marks inactive and deletes from the directory. -/
def RoomManager.close_room (m : RoomManager) (room_code : String) : RoomManager :=
  match lookupA m.rooms room_code with
  | none => m
  | some _ => { rooms := eraseA m.rooms room_code }

/-- RoomManager.remove_participant: deletes the participant if present and
auto-closes the room when the resulting participant count is zero. -/
def RoomManager.remove_participant (m : RoomManager) (room_code user_id : String) :
    RoomManager :=
  match lookupA m.rooms room_code with
  | none => m
  | some room =>
    match lookupA room.participants user_id with
    | none => m
    | some _ =>
      let room2 := { room with participants := eraseA room.participants user_id }
      let m2 : RoomManager := { rooms := insertA m.rooms room_code room2 }
      if room2.participants.length = 0 then m2.close_room room_code else m2

/-- RoomManager.broadcast_to_room: pushes the message to every participant
except the excluded one (a failed push is caught per recipient), then
increments the room message counter. Returns the new state and the list of
(user_id, message) pushes that succeeded. -/
def RoomManager.broadcast_to_room (m : RoomManager) (room_code : String) (message : String)
    (exclude_user : Option String) (pushOk : String → Bool) :
    RoomManager × List (String × String) :=
  match lookupA m.rooms room_code with
  | none => (m, [])
  | some room =>
    let sent := room.participants.filterMap (fun p =>
      if some p.1 ≠ exclude_user ∧ pushOk p.1 = true then some (p.1, message) else none)
    let room2 := { room with message_count := room.message_count + 1 }
    ({ rooms := insertA m.rooms room_code room2 }, sent)

/-- RoomManager.send_to_user: pushes to one participant if the room and the
participant exist (a failed push is caught); mutates nothing. -/
def RoomManager.send_to_user (m : RoomManager) (room_code user_id message : String)
    (pushOk : String → Bool) : RoomManager × List (String × String) :=
  match lookupA m.rooms room_code with
  | none => (m, [])
  | some room =>
    match lookupA room.participants user_id with
    | none => (m, [])
    | some _ => (m, if pushOk user_id = true then [(user_id, message)] else [])

/-- translation_pipeline.py language_map (frontend code to Azure code). -/
def language_map : List (String × String) :=
  [("zh", "zh-Hans"), ("en", "en"), ("es", "es"), ("fr", "fr"), ("de", "de"),
   ("ja", "ja"), ("ko", "ko"), ("pt", "pt"), ("it", "it"), ("ru", "ru"),
   ("ar", "ar"), ("hi", "hi"), ("tr", "tr"), ("nl", "nl"), ("pl", "pl"),
   ("vi", "vi"), ("th", "th"), ("fa", "fa"), ("da", "da"), ("sv", "sv"),
   ("no", "no"), ("fi", "fi")]

/-- TranslationPipeline.validate_language: membership in language_map. -/
def validate_language (language : String) : Bool :=
  (lookupA language_map language).isSome

/-- language_map.get(code, code): map a frontend code to the Azure code. -/
def mapLanguage (code : String) : String := (lookupA language_map code).getD code

/-- Outcome of one external Azure Translator HTTP call: success with the
returned translation, or one of the exception classes the source catches
(requests.exceptions.Timeout, requests.exceptions.RequestException, and
KeyError/IndexError while parsing the response). -/
inductive AzureOutcome where
  | ok (translated : String)
  | timeout
  | requestError
  | parseError
  deriving Repr, DecidableEq

/-- True on the failure outcomes. -/
def AzureOutcome.isFailure : AzureOutcome → Bool
  | .ok _ => false
  | .timeout => true
  | .requestError => true
  | .parseError => true

/-- Pipeline configuration: azure_enabled and TTS_AVAILABLE flags. -/
structure PipelineConfig where
  azure_enabled : Bool
  tts_available : Bool
  deriving Repr, DecidableEq

/-- TranslationPipeline._translate_with_azure: returns the backend translation
on success and falls back to the original text on every caught failure (the
source/target codes are forwarded to the external call, which the outcome
oracle absorbs). -/
def translate_with_azure (cfg : PipelineConfig) (outcome : AzureOutcome)
    (text source_lang target_lang : String) : String :=
  if cfg.azure_enabled = false then text
  else
    match outcome with
    | .ok translated => translated
    | .timeout => text
    | .requestError => text
    | .parseError => text

/-- The dict TranslationPipeline.process_text returns. -/
structure TranslationResult where
  status : String
  original_text : String
  translated_text : String
  translated_audio : String
  source_lang : String
  target_lang : String
  deriving Repr, DecidableEq

/-- TranslationPipeline.process_text. Returns the result dict together with
the number of Azure backend calls made (0 or 1). Identical source and target
languages take the identity branch before the backend is consulted; with
Azure disabled the demo-mode text is returned; the TTS step only fills
translated_audio (its own failures are caught inside and yield an empty
string, absorbed by the ttsAudio oracle). -/
def process_text (cfg : PipelineConfig) (azure : AzureOutcome) (ttsAudio : String)
    (text source_lang target_lang : String) : TranslationResult × Nat :=
  let azure_source := mapLanguage source_lang
  let azure_target := mapLanguage target_lang
  let branch : String × Nat :=
    if source_lang = target_lang then (text, 0)
    else if cfg.azure_enabled = true then
      (translate_with_azure cfg azure text azure_source azure_target, 1)
    else ("[DEMO MODE - No translation] " ++ text, 0)
  let audio := if cfg.tts_available = true then ttsAudio else ""
  ({ status := "success", original_text := text, translated_text := branch.1,
     translated_audio := audio, source_lang := source_lang, target_lang := target_lang },
   branch.2)

/-- One per-recipient job of a fan-out: the recipient, the pipeline result,
how many backend calls it made, and whether the result was pushed (the source
only pushes on status success, and the push itself may fail). -/
structure JobRecord where
  recipient : Participant
  result : TranslationResult
  azureCalls : Nat
  pushed : Bool
  deriving Repr, DecidableEq

/-- The loop body of the websocket text handler for one target tuple:
run process_text on it and record whether the result gets pushed (the source
only pushes on status success, and the push itself may fail). -/
def job_of (cfg : PipelineConfig) (azureFor : String → AzureOutcome)
    (ttsFor : String → String) (pushOk : String → Bool) (text : String)
    (t : Participant × String × String) : JobRecord :=
  { recipient := t.1,
    result :=
      (process_text cfg (azureFor t.1.user_id) (ttsFor t.1.user_id) text t.2.1 t.2.2).1,
    azureCalls :=
      (process_text cfg (azureFor t.1.user_id) (ttsFor t.1.user_id) text t.2.1 t.2.2).2,
    pushed :=
      ((process_text cfg (azureFor t.1.user_id) (ttsFor t.1.user_id)
          text t.2.1 t.2.2).1.status == "success") && pushOk t.1.user_id }

/-- The per-target loop of the websocket text handler: one job per
translation target, with azureFor/ttsFor/pushOk the per-recipient oracles
for the external calls and the push. -/
def fanout_jobs (cfg : PipelineConfig) (azureFor : String → AzureOutcome)
    (ttsFor : String → String) (pushOk : String → Bool)
    (room : ConversationRoom) (sender_id text : String) : List JobRecord :=
  (room.get_translation_targets sender_id).map (job_of cfg azureFor ttsFor pushOk text)

/-- The translation envelope delivered to one recipient. -/
structure Delivery where
  recipient : String
  sender : String
  sender_language : String
  original_text : String
  translated_text : String
  translated_audio : String
  your_language : String
  deriving Repr, DecidableEq

/-- The translation envelope the websocket text handler builds from one job
(the dict passed to send_to_user). -/
def delivery_of (sender_name text : String) (j : JobRecord) : Delivery :=
  { recipient := j.recipient.user_id, sender := sender_name,
    sender_language := j.result.source_lang, original_text := text,
    translated_text := j.result.translated_text,
    translated_audio := j.result.translated_audio,
    your_language := j.result.target_lang }

/-- The deliveries of one fan-out: the envelope built by the websocket text
handler for every job that was pushed. -/
def fanout_deliveries (cfg : PipelineConfig) (azureFor : String → AzureOutcome)
    (ttsFor : String → String) (pushOk : String → Bool)
    (room : ConversationRoom) (sender_id sender_name text : String) : List Delivery :=
  (fanout_jobs cfg azureFor ttsFor pushOk room sender_id text).filterMap (fun j =>
    if j.pushed = true then some (delivery_of sender_name text j) else none)

/-- Handling of one inbound text message by the websocket endpoint: resolve
the sender (silently dropping the message if absent) and run the fan-out. -/
def handle_text (cfg : PipelineConfig) (azureFor : String → AzureOutcome)
    (ttsFor : String → String) (pushOk : String → Bool)
    (room : ConversationRoom) (user_id text : String) : List Delivery :=
  match room.get_participant user_id with
  | none => []
  | some sender =>
    fanout_deliveries cfg azureFor ttsFor pushOk room user_id sender.user_name text

/-- The delivery trace of a sender's inbound message stream starting at
message index k: the websocket loop awaits each message's full fan-out before
receiving the next, so the trace is the concatenation of the per-message
fan-outs, each delivery tagged with its message index. -/
def trace_from (cfg : PipelineConfig) (azureFor : Nat → String → AzureOutcome)
    (ttsFor : Nat → String → String) (pushOk : Nat → String → Bool)
    (room : ConversationRoom) (user_id : String) :
    Nat → List String → List (Nat × Delivery)
  | _, [] => []
  | k, text :: rest =>
    (handle_text cfg (azureFor k) (ttsFor k) (pushOk k) room user_id text).map (fun d => (k, d))
      ++ trace_from cfg azureFor ttsFor pushOk room user_id (k + 1) rest

/-- The full delivery trace of a list of inbound messages from one sender. -/
def message_trace (cfg : PipelineConfig) (azureFor : Nat → String → AzureOutcome)
    (ttsFor : Nat → String → String) (pushOk : Nat → String → Bool)
    (room : ConversationRoom) (user_id : String) (msgs : List String) :
    List (Nat × Delivery) :=
  trace_from cfg azureFor ttsFor pushOk room user_id 0 msgs

/-- rate_limiter.py guest session entry: {messages, created_at}. -/
structure GuestSession where
  messages : Nat
  created_at : Int
  deriving Repr, DecidableEq

/-- rate_limiter.py usage_data entry: {translations, video_minutes, last_reset}. -/
structure UsageEntry where
  translations : Nat
  video_minutes : Nat
  last_reset : Int
  deriving Repr, DecidableEq

/-- The fields of the dict returned by the limit checks that the claims use. -/
structure LimitResult where
  allowed : Bool
  remaining : Nat
  limit : Nat
  upgrade_required : Bool
  deriving Repr, DecidableEq

/-- LIMITS guest translations_per_session. -/
def guest_translations_per_session : Nat := 5

/-- LIMITS free translations_per_day. -/
def free_translations_per_day : Nat := 50

/-- timedelta(minutes=30) in seconds. -/
def guest_session_seconds : Int := 30 * 60

/-- timedelta(days=1) in seconds. -/
def day_seconds : Int := 86400

/-- RateLimiter.check_guest_limit as a state transition on one session entry:
reset when strictly more than 30 minutes have elapsed, then deny at the limit
or increment and allow below it. -/
def check_guest_limit (session : GuestSession) (now : Int) : GuestSession × LimitResult :=
  let limit := guest_translations_per_session
  let session1 :=
    if now - session.created_at > guest_session_seconds then
      { messages := 0, created_at := now }
    else session
  if session1.messages ≥ limit then
    (session1, { allowed := false, remaining := 0, limit := limit, upgrade_required := true })
  else
    let session2 : GuestSession := { session1 with messages := session1.messages + 1 }
    (session2, { allowed := true, remaining := limit - session2.messages, limit := limit,
                 upgrade_required := false })

/-- RateLimiter.check_translation_limit as a state transition on one usage
entry: unknown tiers are coerced to free, paid is unconditionally allowed
without touching state, and the free tier resets its counter when strictly
more than one day has elapsed since last_reset, then denies at the limit or
increments and allows below it. -/
def check_translation_limit (entry : UsageEntry) (now : Int) (user_tier : String) :
    UsageEntry × LimitResult :=
  let tier := if user_tier = "free" ∨ user_tier = "paid" then user_tier else "free"
  if tier = "paid" then
    (entry, { allowed := true, remaining := 999999, limit := 999999,
              upgrade_required := false })
  else
    let limit := free_translations_per_day
    let entry1 :=
      if now - entry.last_reset > day_seconds then
        { entry with translations := 0, last_reset := now }
      else entry
    if entry1.translations ≥ limit then
      (entry1, { allowed := false, remaining := 0, limit := limit, upgrade_required := true })
    else
      let entry2 : UsageEntry := { entry1 with translations := entry1.translations + 1 }
      (entry2, { allowed := true, remaining := limit - entry2.translations, limit := limit,
                 upgrade_required := false })

/-- A sequence of free-tier checks at the given times, threading the entry;
returns the allowed flags in order and the final entry. -/
def run_free_checks (entry : UsageEntry) : List Int → List Bool × UsageEntry
  | [] => ([], entry)
  | now :: rest =>
    let r := check_translation_limit entry now "free"
    let tail := run_free_checks r.1 rest
    (r.2.allowed :: tail.1, tail.2)

/-- A sequence of guest checks at the given times, threading the session. -/
def run_guest_checks (session : GuestSession) : List Int → List Bool × GuestSession
  | [] => ([], session)
  | now :: rest =>
    let r := check_guest_limit session now
    let tail := run_guest_checks r.1 rest
    (r.2.allowed :: tail.1, tail.2)

/-- Outcome of the HTTP join_room endpoint in main.py. -/
inductive JoinRoomOutcome where
  | joined (room_code user_id : String)
  | roomNotFound
  | languageNotSupported
  deriving Repr, DecidableEq

/-- main.py join_room: uppercases the code for the lookup, validates the
language against the pipeline, mints a user id; adds no participant. -/
def join_room (m : RoomManager) (room_code user_name language user_id : String) :
    RoomManager × JoinRoomOutcome :=
  match m.get_room (pyUpper room_code) with
  | none => (m, JoinRoomOutcome.roomNotFound)
  | some _ =>
    if validate_language language = false then (m, JoinRoomOutcome.languageNotSupported)
    else (m, JoinRoomOutcome.joined (pyUpper room_code) user_id)

/-- The join envelope a websocket client sends first. -/
structure JoinData where
  msg_type : String
  user_name : Option String
  language : Option String
  deriving Repr, DecidableEq

/-- Outcome of the websocket join handshake. -/
inductive WsJoinOutcome where
  | closedBadFirstMessage
  | closedJoinFailed
  | joined
  deriving Repr, DecidableEq

/-- The join handshake of the websocket endpoint in app/main.py: rejects a
non-join first envelope, otherwise adds the participant with the envelope's
language (default en) with no validation against the supported set. -/
def ws_join (m : RoomManager) (room_code user_id : String) (join_data : JoinData)
    (websocket : Nat) (now : Int) : RoomManager × WsJoinOutcome :=
  if join_data.msg_type ≠ "join" then (m, WsJoinOutcome.closedBadFirstMessage)
  else
    let user_name := join_data.user_name.getD "Guest"
    let language := join_data.language.getD "en"
    let r := m.add_participant room_code user_id user_name language websocket now
    if r.2 = true then (r.1, WsJoinOutcome.joined) else (r.1, WsJoinOutcome.closedJoinFailed)

/-! ### Association-list lemmas -/

/-- A successful lookup means the looked-up string is verbatim a stored key. -/
theorem lookupA_mem {α : Type} (l : List (String × α)) (k : String) (v : α)
    (h : lookupA l k = some v) : (k, v) ∈ l := by
  induction l with
  | nil => simp [lookupA] at h
  | cons hd tl ih =>
    rw [lookupA] at h
    by_cases hk : hd.1 = k
    · rw [if_pos hk] at h
      have hv : hd.2 = v := Option.some.inj h
      have hdkv : hd = (k, v) := by
        cases hd
        simp only at hk hv
        rw [hk, hv]
      rw [hdkv]
      exact List.mem_cons_self (k, v) tl
    · rw [if_neg hk] at h
      exact List.mem_cons_of_mem hd (ih h)

/-- Looking up the key just inserted finds the inserted value. -/
theorem lookupA_insertA_self {α : Type} (l : List (String × α)) (k : String) (v : α) :
    lookupA (insertA l k v) k = some v := by
  induction l with
  | nil => simp [insertA, lookupA]
  | cons hd tl ih =>
    rw [insertA]
    by_cases hk : hd.1 = k
    · rw [if_pos hk, lookupA, if_pos rfl]
    · rw [if_neg hk, lookupA, if_neg hk]
      exact ih

/-- Inserting one key leaves lookups of other keys unchanged. -/
theorem lookupA_insertA_ne {α : Type} (l : List (String × α)) (k k2 : String) (v : α)
    (h : k2 ≠ k) : lookupA (insertA l k v) k2 = lookupA l k2 := by
  induction l with
  | nil =>
    show (if k = k2 then some v else lookupA ([] : List (String × α)) k2) = lookupA [] k2
    rw [if_neg (fun h2 => h h2.symm)]
  | cons hd tl ih =>
    rw [insertA]
    by_cases hk : hd.1 = k
    · rw [if_pos hk, lookupA, lookupA]
      rw [if_neg (fun h2 => h h2.symm)]
      rw [if_neg (fun h2 => h ((hk.symm.trans h2).symm))]
    · rw [if_neg hk, lookupA, lookupA]
      by_cases hk2 : hd.1 = k2
      · rw [if_pos hk2, if_pos hk2]
      · rw [if_neg hk2, if_neg hk2]
        exact ih

/-- Looking up an erased key finds nothing. -/
theorem lookupA_eraseA_self {α : Type} (l : List (String × α)) (k : String) :
    lookupA (eraseA l k) k = none := by
  induction l with
  | nil => simp [eraseA, lookupA]
  | cons hd tl ih =>
    rw [eraseA]
    by_cases hk : hd.1 = k
    · rw [if_pos hk]
      exact ih
    · rw [if_neg hk, lookupA, if_neg hk]
      exact ih

/-- Erasing one key leaves lookups of other keys unchanged. -/
theorem lookupA_eraseA_ne {α : Type} (l : List (String × α)) (k k2 : String)
    (h : k2 ≠ k) : lookupA (eraseA l k) k2 = lookupA l k2 := by
  induction l with
  | nil => simp [eraseA]
  | cons hd tl ih =>
    rw [eraseA]
    by_cases hk : hd.1 = k
    · rw [if_pos hk, ih, lookupA]
      rw [if_neg (fun h2 => h ((hk.symm.trans h2).symm))]
    · rw [if_neg hk, lookupA, lookupA]
      by_cases hk2 : hd.1 = k2
      · rw [if_pos hk2, if_pos hk2]
      · rw [if_neg hk2, if_neg hk2]
        exact ih

/-! ### Pipeline lemmas -/

/-- process_text always reports success and echoes its inputs in the
original_text, source_lang and target_lang fields. -/
theorem process_text_fields (cfg : PipelineConfig) (azure : AzureOutcome)
    (ttsAudio text sl tl : String) :
    (process_text cfg azure ttsAudio text sl tl).1.status = "success" ∧
    (process_text cfg azure ttsAudio text sl tl).1.original_text = text ∧
    (process_text cfg azure ttsAudio text sl tl).1.source_lang = sl ∧
    (process_text cfg azure ttsAudio text sl tl).1.target_lang = tl := by
  simp [process_text]

/-- With identical source and target languages process_text is the identity
passthrough and performs no backend call. -/
theorem process_text_same_lang (cfg : PipelineConfig) (azure : AzureOutcome)
    (ttsAudio text lang : String) :
    (process_text cfg azure ttsAudio text lang lang).1.translated_text = text ∧
    (process_text cfg azure ttsAudio text lang lang).2 = 0 := by
  simp [process_text]

/-- Every caught failure of the Azure call falls back to the original text. -/
theorem translate_with_azure_failure (cfg : PipelineConfig) (azure : AzureOutcome)
    (text sl tl : String) (hf : azure.isFailure = true) :
    translate_with_azure cfg azure text sl tl = text := by
  cases azure with
  | ok s => simp [AzureOutcome.isFailure] at hf
  | timeout => unfold translate_with_azure; split <;> rfl
  | requestError => unfold translate_with_azure; split <;> rfl
  | parseError => unfold translate_with_azure; split <;> rfl

/-- Each translation target of a resolved sender carries the sender's
language as source and the target participant's own language as target. -/
theorem mem_translation_targets (room : ConversationRoom) (sender_id : String)
    (sender : Participant) (hs : room.get_participant sender_id = some sender)
    (t : Participant × String × String)
    (ht : t ∈ room.get_translation_targets sender_id) :
    t.2.1 = sender.language ∧ t.2.2 = t.1.language := by
  unfold ConversationRoom.get_translation_targets at ht
  rw [hs] at ht
  rcases List.mem_map.1 ht with ⟨p, _, rfl⟩
  exact ⟨rfl, rfl⟩

/-! ### Concrete states used by witnesses -/

/-- Azure enabled, TTS unavailable. -/
def cfgAzure : PipelineConfig := { azure_enabled := true, tts_available := false }

/-- Example sender, English. -/
def partAlice : Participant :=
  { user_id := "u1", user_name := "Alice", language := "en", websocket := 1, joined_at := 0 }

/-- Example recipient with the same language as the sender. -/
def partBob : Participant :=
  { user_id := "u2", user_name := "Bob", language := "en", websocket := 2, joined_at := 0 }

/-- Example recipient with a different language. -/
def partCarol : Participant :=
  { user_id := "u3", user_name := "Carol", language := "fr", websocket := 3, joined_at := 0 }

/-- Example room with three participants. -/
def roomEx : ConversationRoom :=
  { room_code := "ABC123", created_at := 0,
    participants := [("u1", partAlice), ("u2", partBob), ("u3", partCarol)] }

/-- Backend oracle succeeding everywhere. -/
def azureForEx : String → AzureOutcome := fun _ => AzureOutcome.ok "BONJOUR"

/-- TTS oracle returning no audio. -/
def ttsForEx : String → String := fun _ => ""

/-- Push oracle succeeding everywhere. -/
def pushOkEx : String → Bool := fun _ => true

/-! ### C1 -/

/-- C1: in any fan-out of a text message, every job whose recipient declares
the same language as the sender gets the original text back verbatim with
zero backend calls, and every delivered envelope whose target language equals
the sender's language carries the original text as its translated_text. -/
theorem C1_same_language_passthrough (cfg : PipelineConfig)
    (azureFor : String → AzureOutcome) (ttsFor : String → String)
    (pushOk : String → Bool) (room : ConversationRoom) (user_id text : String)
    (sender : Participant) (hs : room.get_participant user_id = some sender) :
    (∀ j ∈ fanout_jobs cfg azureFor ttsFor pushOk room user_id text,
       j.recipient.language = sender.language →
         j.result.translated_text = text ∧ j.azureCalls = 0) ∧
    (∀ d ∈ handle_text cfg azureFor ttsFor pushOk room user_id text,
       d.your_language = sender.language → d.translated_text = text) := by
  constructor
  · intro j hj hlang
    rcases List.mem_map.1 hj with ⟨t, ht, rfl⟩
    rcases mem_translation_targets room user_id sender hs t ht with ⟨h1, h2⟩
    have hlang2 : t.1.language = sender.language := hlang
    have heq : t.2.1 = t.2.2 := by
      rw [h1, h2]
      exact hlang2.symm
    show (process_text cfg (azureFor t.1.user_id) (ttsFor t.1.user_id)
        text t.2.1 t.2.2).1.translated_text = text ∧
      (process_text cfg (azureFor t.1.user_id) (ttsFor t.1.user_id)
        text t.2.1 t.2.2).2 = 0
    rw [heq]
    exact process_text_same_lang cfg (azureFor t.1.user_id) (ttsFor t.1.user_id) text t.2.2
  · intro d hd hlang
    have hd2 : d ∈ fanout_deliveries cfg azureFor ttsFor pushOk room user_id
        sender.user_name text := by
      unfold handle_text at hd
      rw [hs] at hd
      exact hd
    rcases List.mem_filterMap.1 hd2 with ⟨j, hj, hjd⟩
    rcases List.mem_map.1 hj with ⟨t, ht, rfl⟩
    split at hjd
    · have hdd := Option.some.inj hjd
      subst hdd
      have hlang2 : (process_text cfg (azureFor t.1.user_id) (ttsFor t.1.user_id)
          text t.2.1 t.2.2).1.target_lang = sender.language := hlang
      rcases mem_translation_targets room user_id sender hs t ht with ⟨h1, h2⟩
      have htl := (process_text_fields cfg (azureFor t.1.user_id) (ttsFor t.1.user_id)
          text t.2.1 t.2.2).2.2.2
      have heq : t.2.1 = t.2.2 := by
        rw [h1, ← hlang2]
        exact htl.symm
      show (process_text cfg (azureFor t.1.user_id) (ttsFor t.1.user_id)
          text t.2.1 t.2.2).1.translated_text = text
      rw [heq]
      exact (process_text_same_lang cfg (azureFor t.1.user_id) (ttsFor t.1.user_id)
        text t.2.2).1
    · exact Option.noConfusion hjd

/-- Witness for C1 at a concrete room: same-language recipient Bob receives
the sender's text verbatim. -/
theorem C1_witness :
    (Delivery.mk "u2" "Alice" "en" "hello" "hello" "" "en").translated_text = "hello" :=
  (C1_same_language_passthrough cfgAzure azureForEx ttsForEx pushOkEx roomEx
      "u1" "hello" partAlice rfl).2
    (Delivery.mk "u2" "Alice" "en" "hello" "hello" "" "en") (by decide) rfl

/-! ### C3 -/

/-- C3: when the external translation call fails or times out, the text job
does not fail: the result reports success (so the delivery guard passes) and
its translated_text is exactly the original input text. -/
theorem C3_translation_failure_fallback (cfg : PipelineConfig) (azure : AzureOutcome)
    (ttsAudio text source_lang target_lang : String)
    (hA : cfg.azure_enabled = true) (hf : azure.isFailure = true) :
    (process_text cfg azure ttsAudio text source_lang target_lang).1.translated_text = text ∧
    (process_text cfg azure ttsAudio text source_lang target_lang).1.status = "success" := by
  refine ⟨?_, (process_text_fields cfg azure ttsAudio text source_lang target_lang).1⟩
  by_cases h : source_lang = target_lang
  · subst h
    exact (process_text_same_lang cfg azure ttsAudio text source_lang).1
  · simp only [process_text, if_neg h, hA, if_pos]
    exact translate_with_azure_failure cfg azure text (mapLanguage source_lang)
      (mapLanguage target_lang) hf

/-- Witness for C3: a timed-out Azure call on a Spanish-to-English job still
succeeds with the original text. -/
theorem C3_witness :
    (process_text cfgAzure AzureOutcome.timeout "" "hola" "es" "en").1.translated_text
        = "hola" ∧
    (process_text cfgAzure AzureOutcome.timeout "" "hola" "es" "en").1.status
        = "success" :=
  C3_translation_failure_fallback cfgAzure AzureOutcome.timeout "" "hola" "es" "en" rfl rfl

/-! ### C2 -/

/-- Every entry of a trace started at message index k carries index ≥ k. -/
theorem trace_from_index_ge (cfg : PipelineConfig) (azureFor : Nat → String → AzureOutcome)
    (ttsFor : Nat → String → String) (pushOk : Nat → String → Bool)
    (room : ConversationRoom) (user_id : String) :
    ∀ (msgs : List String) (k : Nat) (e : Nat × Delivery),
      e ∈ trace_from cfg azureFor ttsFor pushOk room user_id k msgs → k ≤ e.1 := by
  intro msgs
  induction msgs with
  | nil =>
    intro k e he
    simp [trace_from] at he
  | cons hd tl ih =>
    intro k e he
    rw [trace_from] at he
    rcases List.mem_append.1 he with h | h
    · rcases List.mem_map.1 h with ⟨d, _, rfl⟩
      exact le_refl k
    · exact Nat.le_of_succ_le (ih (k + 1) e h)

/-- The message indices along a delivery trace are non-decreasing. -/
theorem trace_from_pairwise (cfg : PipelineConfig) (azureFor : Nat → String → AzureOutcome)
    (ttsFor : Nat → String → String) (pushOk : Nat → String → Bool)
    (room : ConversationRoom) (user_id : String) :
    ∀ (msgs : List String) (k : Nat),
      List.Pairwise (fun a b => a.1 ≤ b.1)
        (trace_from cfg azureFor ttsFor pushOk room user_id k msgs) := by
  intro msgs
  induction msgs with
  | nil =>
    intro k
    simp [trace_from]
  | cons hd tl ih =>
    intro k
    rw [trace_from]
    refine List.pairwise_append.2 ⟨?_, ih (k + 1), ?_⟩
    · refine List.pairwise_map.2 ?_
      have hconst : ∀ (l : List Delivery),
          List.Pairwise (fun d1 d2 : Delivery =>
            ((k, d1) : Nat × Delivery).1 ≤ ((k, d2) : Nat × Delivery).1) l := by
        intro l
        induction l with
        | nil => exact List.Pairwise.nil
        | cons h t iht => exact List.Pairwise.cons (fun b _ => le_refl k) iht
      exact hconst _
    · intro a ha b hb
      rcases List.mem_map.1 ha with ⟨d, _, rfl⟩
      exact le_trans (Nat.le_succ k) (trace_from_index_ge cfg azureFor ttsFor pushOk
        room user_id tl (k + 1) b hb)

/-- C2: per-recipient delivery order matches the sender's message order. The
websocket loop processes one inbound message to completion (its whole
fan-out) before receiving the next, so in the delivery trace every delivery
of an earlier message occupies an earlier position than every delivery of a
later message. -/
theorem C2_per_sender_ordering (cfg : PipelineConfig)
    (azureFor : Nat → String → AzureOutcome) (ttsFor : Nat → String → String)
    (pushOk : Nat → String → Bool) (room : ConversationRoom) (user_id : String)
    (msgs : List String)
    (p1 p2 : Fin (message_trace cfg azureFor ttsFor pushOk room user_id msgs).length)
    (i j : Nat) (d1 d2 : Delivery)
    (e1 : (message_trace cfg azureFor ttsFor pushOk room user_id msgs).get p1 = (i, d1))
    (e2 : (message_trace cfg azureFor ttsFor pushOk room user_id msgs).get p2 = (j, d2))
    (hij : i < j) : p1 < p2 := by
  by_contra hcon
  have hle : p2 ≤ p1 := not_lt.1 hcon
  rcases eq_or_lt_of_le hle with heq2 | hlt
  · rw [← heq2] at e1
    rw [e1] at e2
    injection e2 with hi hd
    omega
  · have hpw : List.Pairwise (fun a b => a.1 ≤ b.1)
        (message_trace cfg azureFor ttsFor pushOk room user_id msgs) :=
      trace_from_pairwise cfg azureFor ttsFor pushOk room user_id msgs 0
    have hp := List.pairwise_iff_get.1 hpw p2 p1 hlt
    rw [e1, e2] at hp
    have hji : j ≤ i := hp
    omega

/-- Witness for C2: with two messages into the example room, the delivery of
message 0 to Bob sits strictly before the delivery of message 1 to Bob. -/
theorem C2_witness :
    (⟨0, by decide⟩ : Fin (message_trace cfgAzure (fun _ => azureForEx)
        (fun _ => ttsForEx) (fun _ => pushOkEx) roomEx "u1" ["one", "two"]).length)
      < ⟨2, by decide⟩ :=
  C2_per_sender_ordering cfgAzure (fun _ => azureForEx) (fun _ => ttsForEx)
    (fun _ => pushOkEx) roomEx "u1" ["one", "two"] ⟨0, by decide⟩ ⟨2, by decide⟩
    0 1 (Delivery.mk "u2" "Alice" "en" "one" "one" "" "en")
    (Delivery.mk "u2" "Alice" "en" "two" "two" "" "en")
    (by decide) (by decide) (by decide)

/-! ### C4 -/

/-- C4: for any oracle of per-recipient backend outcomes and push outcomes —
in particular when the translation job or the push fails for any other
recipient — every target whose own push succeeds still receives a delivery:
one recipient's failure never aborts the rest of the fan-out (and a failed
text-translation backend call cannot even drop its own recipient, thanks to
the fallback). -/
theorem C4_fanout_isolation (cfg : PipelineConfig) (azureFor : String → AzureOutcome)
    (ttsFor : String → String) (pushOk : String → Bool) (room : ConversationRoom)
    (user_id text : String) (sender : Participant)
    (hs : room.get_participant user_id = some sender)
    (t : Participant × String × String)
    (ht : t ∈ room.get_translation_targets user_id)
    (hpush : pushOk t.1.user_id = true) :
    t.1.user_id ∈ (handle_text cfg azureFor ttsFor pushOk room user_id text).map
      Delivery.recipient := by
  have hstat := (process_text_fields cfg (azureFor t.1.user_id) (ttsFor t.1.user_id)
    text t.2.1 t.2.2).1
  have hht : handle_text cfg azureFor ttsFor pushOk room user_id text
      = fanout_deliveries cfg azureFor ttsFor pushOk room user_id sender.user_name text := by
    unfold handle_text
    rw [hs]
  rw [hht]
  refine List.mem_map.2
    ⟨delivery_of sender.user_name text (job_of cfg azureFor ttsFor pushOk text t), ?_, rfl⟩
  unfold fanout_deliveries
  refine List.mem_filterMap.2
    ⟨job_of cfg azureFor ttsFor pushOk text t, ?_, ?_⟩
  · exact List.mem_map.2 ⟨t, ht, rfl⟩
  · have hcond : (job_of cfg azureFor ttsFor pushOk text t).pushed = true := by
      simp [job_of, hstat, hpush]
    rw [if_pos hcond]

/-- Backend oracle failing exactly for Carol. -/
def azureForC4 : String → AzureOutcome :=
  fun uid => if uid = "u3" then AzureOutcome.requestError else AzureOutcome.ok "X"

/-- Push oracle failing exactly for Carol. -/
def pushOkC4 : String → Bool := fun uid => uid != "u3"

/-- Witness for C4: with both the backend and the push failing for Carol,
Bob still appears among the delivery recipients of the same fan-out. -/
theorem C4_witness :
    "u2" ∈ (handle_text cfgAzure azureForC4 ttsForEx pushOkC4 roomEx "u1" "hi").map
      Delivery.recipient :=
  C4_fanout_isolation cfgAzure azureForC4 ttsForEx pushOkC4 roomEx "u1" "hi"
    partAlice rfl (partBob, "en", "en") (by decide) (by decide)

/-! ### C5 -/

/-- Example room directory holding the example room under its code. -/
def mgrEx : RoomManager := { rooms := [("ABC123", roomEx)] }

/-- C5 counterexample: the room is stored and found under ABC123, the string
abc123 differs from it only in letter case, yet get_room on abc123 returns
absent — get_room performs no uppercase normalization. -/
theorem C5_counterexample :
    mgrEx.get_room "ABC123" = some roomEx ∧
    pyUpper "abc123" = "ABC123" ∧
    "abc123" ≠ "ABC123" ∧
    mgrEx.get_room "abc123" = none := by
  refine ⟨rfl, by decide, by decide, rfl⟩

/-- C5 amended: get_room is an exact-match, case-sensitive dict lookup — a
successful lookup means the argument is verbatim a stored key; callers obtain
case-insensitivity only by uppercasing before the call (as the join endpoint
does), which finds any room stored under the uppercased form of the input. -/
theorem C5_amended_exact_match :
    (∀ (m : RoomManager) (s : String) (room : ConversationRoom),
       m.get_room s = some room → (s, room) ∈ m.rooms) ∧
    (∀ (m : RoomManager) (code s : String) (room : ConversationRoom),
       lookupA m.rooms code = some room → pyUpper s = code →
         m.get_room (pyUpper s) = some room) := by
  constructor
  · intro m s room h
    exact lookupA_mem m.rooms s room h
  · intro m code s room h hup
    rw [RoomManager.get_room, hup]
    exact h

/-- Witness for C5 amended: the stored pair is recovered verbatim, and the
uppercased form of abc123 does find the room. -/
theorem C5_amended_witness :
    ("ABC123", roomEx) ∈ mgrEx.rooms ∧
    mgrEx.get_room (pyUpper "abc123") = some roomEx :=
  ⟨C5_amended_exact_match.1 mgrEx "ABC123" roomEx rfl,
   C5_amended_exact_match.2 mgrEx "ABC123" "abc123" roomEx rfl (by decide)⟩

/-! ### C6 -/

/-- C6 counterexample: the language code xx is outside the supported set, yet
the websocket join accepts it — the join reports success, state is mutated,
and xx becomes the declared language of the stored participant. -/
theorem C6_counterexample :
    validate_language "xx" = false ∧
    (ws_join mgrEx "ABC123" "u9" (JoinData.mk "join" (some "Eve") (some "xx")) 7 0).2
        = WsJoinOutcome.joined ∧
    ((ws_join mgrEx "ABC123" "u9" (JoinData.mk "join" (some "Eve") (some "xx")) 7 0).1.get_room
          "ABC123").bind (fun r => r.get_participant "u9")
      = some (Participant.mk "u9" "Eve" "xx" 7 0) :=
  ⟨rfl, rfl, rfl⟩

/-- Adding a participant to an existing room stores it verbatim: the room is
still found and the new participant is retrievable with all given fields. -/
theorem add_participant_found (m : RoomManager) (rc uid un lang : String) (ws : Nat)
    (now : Int) (room : ConversationRoom) (h : lookupA m.rooms rc = some room) :
    ((m.add_participant rc uid un lang ws now).1.get_room rc).bind
        (fun r => r.get_participant uid)
      = some (Participant.mk uid un lang ws now) := by
  unfold RoomManager.add_participant
  rw [h]
  simp only [RoomManager.get_room, lookupA_insertA_self, Option.bind,
    ConversationRoom.get_participant]

/-- C6 amended: only the HTTP join endpoint validates the language — with an
unsupported code it mutates nothing and fails fast with the
language-not-supported outcome; the websocket join performs no language
validation and, whenever the room exists, stores the participant with
whatever language the join envelope declares (defaulting to en). -/
theorem C6_amended_join_validation (m : RoomManager)
    (room_code user_name language user_id : String)
    (hbad : validate_language language = false)
    (hne : m.get_room (pyUpper room_code) ≠ none)
    (m2 : RoomManager) (rc2 uid2 : String) (jd : JoinData) (ws : Nat) (now : Int)
    (room2 : ConversationRoom) (hjoin : jd.msg_type = "join")
    (hroom : m2.get_room rc2 = some room2) :
    (join_room m room_code user_name language user_id).1 = m ∧
    (join_room m room_code user_name language user_id).2
        = JoinRoomOutcome.languageNotSupported ∧
    ((ws_join m2 rc2 uid2 jd ws now).1.get_room rc2).bind
        (fun r => r.get_participant uid2)
      = some (Participant.mk uid2 (jd.user_name.getD "Guest") (jd.language.getD "en")
          ws now) := by
  have hlook : lookupA m2.rooms rc2 = some room2 := hroom
  refine ⟨?_, ?_, ?_⟩
  · unfold join_room
    cases h : m.get_room (pyUpper room_code) with
    | none => rfl
    | some r => simp [hbad]
  · unfold join_room
    cases h : m.get_room (pyUpper room_code) with
    | none => exact absurd h hne
    | some r => simp [hbad]
  · unfold ws_join
    rw [if_neg (fun hcon => hcon hjoin)]
    have hadd := add_participant_found m2 rc2 uid2 (jd.user_name.getD "Guest")
      (jd.language.getD "en") ws now room2 hlook
    have hflag : (m2.add_participant rc2 uid2 (jd.user_name.getD "Guest")
        (jd.language.getD "en") ws now).2 = true := by
      unfold RoomManager.add_participant
      rw [hlook]
    rw [if_pos hflag]
    exact hadd

/-- Witness for C6 amended: concrete instantiation — the HTTP join declines
xx leaving the directory untouched, while the websocket join stores Eve with
language xx in the example room. -/
theorem C6_amended_witness :
    (join_room mgrEx "ABC123" "Eve" "xx" "u9").1 = mgrEx ∧
    (join_room mgrEx "ABC123" "Eve" "xx" "u9").2
        = JoinRoomOutcome.languageNotSupported ∧
    ((ws_join mgrEx "ABC123" "u9" (JoinData.mk "join" (some "Eve") (some "xx")) 7 0).1.get_room
          "ABC123").bind (fun r => r.get_participant "u9")
      = some (Participant.mk "u9" "Eve" "xx" 7 0) :=
  C6_amended_join_validation mgrEx "ABC123" "Eve" "xx" "u9" rfl (by decide)
    mgrEx "ABC123" "u9" (JoinData.mk "join" (some "Eve") (some "xx")) 7 0
    roomEx rfl rfl

/-! ### C7 -/

/-- Free-tier checks all lying within the 24-hour window never reset, so the
k-th check (0-indexed) of a run started at count c is allowed exactly when
c + k is below the daily limit. -/
theorem run_free_checks_within (t0 : Int) (v : Nat) :
    ∀ (times : List Int) (c : Nat), (∀ t ∈ times, t - t0 ≤ day_seconds) →
      (run_free_checks (UsageEntry.mk c v t0) times).1
        = (List.range times.length).map
            (fun k => decide (c + k < free_translations_per_day)) := by
  intro times
  induction times with
  | nil =>
    intro c h
    rfl
  | cons now rest ih =>
    intro c h
    have hnow : ¬ now - t0 > day_seconds :=
      not_lt.2 (h now (List.mem_cons_self now rest))
    have htail : ∀ t ∈ rest, t - t0 ≤ day_seconds :=
      fun t htt => h t (List.mem_cons_of_mem now htt)
    rw [run_free_checks]
    rw [List.length_cons, List.range_succ_eq_map, List.map_cons, List.map_map]
    by_cases hc : c ≥ free_translations_per_day
    · have hstep : check_translation_limit (UsageEntry.mk c v t0) now "free"
          = (UsageEntry.mk c v t0,
             LimitResult.mk false 0 free_translations_per_day true) := by
        unfold check_translation_limit
        simp [hnow, hc]
      rw [hstep]
      simp only
      rw [ih c htail]
      congr 1
      · symm
        rw [decide_eq_false_iff_not]
        omega
      · apply List.map_congr_left
        intro k _
        show decide (c + k < free_translations_per_day)
          = decide (c + (k + 1) < free_translations_per_day)
        refine decide_eq_decide.2 ?_
        omega
    · have hstep : check_translation_limit (UsageEntry.mk c v t0) now "free"
          = (UsageEntry.mk (c + 1) v t0,
             LimitResult.mk true (free_translations_per_day - (c + 1))
               free_translations_per_day false) := by
        unfold check_translation_limit
        simp [hnow, hc]
      rw [hstep]
      simp only
      rw [ih (c + 1) htail]
      congr 1
      · symm
        rw [decide_eq_true_eq]
        omega
      · apply List.map_congr_left
        intro k _
        show decide (c + 1 + k < free_translations_per_day)
          = decide (c + (k + 1) < free_translations_per_day)
        refine decide_eq_decide.2 ?_
        omega

/-- C7: starting from a fresh free-tier entry, 51 checks all within one
24-hour window yield 50 allowed results followed by a denial; and any check
made strictly more than 24 hours after the stored window-start resets the
counter before evaluating, so it is allowed, leaves the count at 1 and moves
the window-start to the current time. -/
theorem C7_free_tier_quota (times : List Int) (t0 : Int) (v : Nat)
    (hlen : times.length = 51)
    (hw : ∀ t ∈ times, t - t0 ≤ day_seconds)
    (e : UsageEntry) (now : Int)
    (hreset : now - e.last_reset > day_seconds) :
    (run_free_checks (UsageEntry.mk 0 v t0) times).1
        = List.replicate 50 true ++ [false] ∧
    (check_translation_limit e now "free").2.allowed = true ∧
    (check_translation_limit e now "free").1.translations = 1 ∧
    (check_translation_limit e now "free").1.last_reset = now := by
  refine ⟨?_, ?_, ?_, ?_⟩
  · rw [run_free_checks_within t0 v times 0 hw, hlen]
    decide
  · unfold check_translation_limit
    simp [hreset, free_translations_per_day]
  · unfold check_translation_limit
    simp [hreset, free_translations_per_day]
  · unfold check_translation_limit
    simp [hreset, free_translations_per_day]

/-- Witness for C7 at concrete inputs: 51 checks at time 0 from a fresh
entry, and one reset check 25 hours after the window-start. -/
theorem C7_witness :
    (run_free_checks (UsageEntry.mk 0 0 0) (List.replicate 51 0)).1
        = List.replicate 50 true ++ [false] ∧
    (check_translation_limit (UsageEntry.mk 3 0 0) 90000 "free").2.allowed = true ∧
    (check_translation_limit (UsageEntry.mk 3 0 0) 90000 "free").1.translations = 1 ∧
    (check_translation_limit (UsageEntry.mk 3 0 0) 90000 "free").1.last_reset = 90000 :=
  C7_free_tier_quota (List.replicate 51 0) 0 0 (by decide)
    (by
      intro t ht
      rw [List.eq_of_mem_replicate ht]
      decide)
    (UsageEntry.mk 3 0 0) 90000 (by decide)

/-! ### C8 -/

/-- Guest checks all lying within the 30-minute window never reset, so the
k-th check (0-indexed) of a run started at count c is allowed exactly when
c + k is below the per-session limit. -/
theorem run_guest_checks_within (t0 : Int) :
    ∀ (times : List Int) (c : Nat), (∀ t ∈ times, t - t0 ≤ guest_session_seconds) →
      (run_guest_checks (GuestSession.mk c t0) times).1
        = (List.range times.length).map
            (fun k => decide (c + k < guest_translations_per_session)) := by
  intro times
  induction times with
  | nil =>
    intro c h
    rfl
  | cons now rest ih =>
    intro c h
    have hnow : ¬ now - t0 > guest_session_seconds :=
      not_lt.2 (h now (List.mem_cons_self now rest))
    have htail : ∀ t ∈ rest, t - t0 ≤ guest_session_seconds :=
      fun t htt => h t (List.mem_cons_of_mem now htt)
    rw [run_guest_checks]
    rw [List.length_cons, List.range_succ_eq_map, List.map_cons, List.map_map]
    by_cases hc : c ≥ guest_translations_per_session
    · have hstep : check_guest_limit (GuestSession.mk c t0) now
          = (GuestSession.mk c t0,
             LimitResult.mk false 0 guest_translations_per_session true) := by
        unfold check_guest_limit
        simp [hnow, hc]
      rw [hstep]
      simp only
      rw [ih c htail]
      congr 1
      · symm
        rw [decide_eq_false_iff_not]
        omega
      · apply List.map_congr_left
        intro k _
        show decide (c + k < guest_translations_per_session)
          = decide (c + (k + 1) < guest_translations_per_session)
        refine decide_eq_decide.2 ?_
        omega
    · have hstep : check_guest_limit (GuestSession.mk c t0) now
          = (GuestSession.mk (c + 1) t0,
             LimitResult.mk true (guest_translations_per_session - (c + 1))
               guest_translations_per_session false) := by
        unfold check_guest_limit
        simp [hnow, hc]
      rw [hstep]
      simp only
      rw [ih (c + 1) htail]
      congr 1
      · symm
        rw [decide_eq_true_eq]
        omega
      · apply List.map_congr_left
        intro k _
        show decide (c + 1 + k < guest_translations_per_session)
          = decide (c + (k + 1) < guest_translations_per_session)
        refine decide_eq_decide.2 ?_
        omega

/-- C8: starting from a fresh guest session, six checks within the 30-minute
window yield five allowed results then a denial (so the 5th is allowed and
the 6th denied); within the window a check below the limit increments the
counter and allows, and a check at the limit denies. -/
theorem C8_guest_quota (times : List Int) (t0 : Int)
    (hlen : times.length = 6)
    (hw : ∀ t ∈ times, t - t0 ≤ guest_session_seconds)
    (s1 : GuestSession) (now1 : Int)
    (h1w : ¬ now1 - s1.created_at > guest_session_seconds)
    (h1 : s1.messages < guest_translations_per_session)
    (s2 : GuestSession) (now2 : Int)
    (h2w : ¬ now2 - s2.created_at > guest_session_seconds)
    (h2 : s2.messages ≥ guest_translations_per_session) :
    (run_guest_checks (GuestSession.mk 0 t0) times).1
        = List.replicate 5 true ++ [false] ∧
    (check_guest_limit s1 now1).2.allowed = true ∧
    (check_guest_limit s1 now1).1.messages = s1.messages + 1 ∧
    (check_guest_limit s2 now2).2.allowed = false := by
  refine ⟨?_, ?_, ?_, ?_⟩
  · rw [run_guest_checks_within t0 times 0 hw, hlen]
    decide
  · unfold check_guest_limit
    simp [h1w, not_le.2 h1]
  · unfold check_guest_limit
    simp [h1w, not_le.2 h1]
  · unfold check_guest_limit
    simp [h1w, h2w, h2]

/-- Witness for C8 at concrete inputs: six checks at time 0 from a fresh
session; a session at 2 of 5 messages is allowed and incremented; a session
at the limit is denied. -/
theorem C8_witness :
    (run_guest_checks (GuestSession.mk 0 0) (List.replicate 6 0)).1
        = List.replicate 5 true ++ [false] ∧
    (check_guest_limit (GuestSession.mk 2 0) 10).2.allowed = true ∧
    (check_guest_limit (GuestSession.mk 2 0) 10).1.messages = 2 + 1 ∧
    (check_guest_limit (GuestSession.mk 5 0) 10).2.allowed = false :=
  C8_guest_quota (List.replicate 6 0) 0 (by decide)
    (by
      intro t ht
      rw [List.eq_of_mem_replicate ht]
      decide)
    (GuestSession.mk 2 0) 10 (by decide) (by decide)
    (GuestSession.mk 5 0) 10 (by decide) (by decide)

/-! ### C9 -/

/-- C9: removing the last remaining participant of a room auto-closes it —
after remove_participant brings the count to zero, get_room on that room
code returns absent. -/
theorem C9_last_participant_closes_room (m : RoomManager) (code uid : String)
    (room : ConversationRoom) (p : Participant)
    (hr : m.get_room code = some room)
    (hp : room.participants = [(uid, p)]) :
    (m.remove_participant code uid).get_room code = none := by
  have hlook : lookupA m.rooms code = some room := hr
  obtain ⟨rc, ca, parts, ia, mc⟩ := room
  have hp2 : parts = [(uid, p)] := hp
  subst hp2
  unfold RoomManager.remove_participant
  rw [hlook]
  simp [lookupA, eraseA, RoomManager.close_room, RoomManager.get_room,
    lookupA_insertA_self, lookupA_eraseA_self]

/-- Single-participant room for the C9 witness. -/
def roomSolo : ConversationRoom :=
  { room_code := "ZZZ999", created_at := 0, participants := [("u1", partAlice)] }

/-- Directory holding only the single-participant room. -/
def mgrSolo : RoomManager := { rooms := [("ZZZ999", roomSolo)] }

/-- Witness for C9: removing Alice, the only participant, makes the room
unfindable. -/
theorem C9_witness : (mgrSolo.remove_participant "ZZZ999" "u1").get_room "ZZZ999" = none :=
  C9_last_participant_closes_room mgrSolo "ZZZ999" "u1" roomSolo partAlice rfl rfl

/-! ### C10 -/

/-- C10: broadcast_to_room on an existing room increments exactly that room's
message counter, leaving its participants and every other field unchanged
and every other room untouched (whatever the per-recipient push outcomes);
on an absent room code it changes nothing; and send_to_user never changes the
directory state, so message_count counts broadcasts only. -/
theorem C10_broadcast_frame (m : RoomManager) (code message : String)
    (exclude : Option String) (pushOk : String → Bool) (room : ConversationRoom)
    (hr : m.get_room code = some room)
    (other : String) (hother : other ≠ code)
    (mA : RoomManager) (codeA msgA : String) (excludeA : Option String)
    (pushOkA : String → Bool) (hA : mA.get_room codeA = none)
    (mS : RoomManager) (codeS uidS msgS : String) (pushOkS : String → Bool) :
    (m.broadcast_to_room code message exclude pushOk).1.get_room code
        = some { room with message_count := room.message_count + 1 } ∧
    (m.broadcast_to_room code message exclude pushOk).1.get_room other
        = m.get_room other ∧
    (mA.broadcast_to_room codeA msgA excludeA pushOkA).1 = mA ∧
    (mS.send_to_user codeS uidS msgS pushOkS).1 = mS := by
  have hlook : lookupA m.rooms code = some room := hr
  have hlookA : lookupA mA.rooms codeA = none := hA
  refine ⟨?_, ?_, ?_, ?_⟩
  · unfold RoomManager.broadcast_to_room
    rw [hlook]
    exact lookupA_insertA_self m.rooms code _
  · unfold RoomManager.broadcast_to_room
    rw [hlook]
    exact lookupA_insertA_ne m.rooms code other _ hother
  · unfold RoomManager.broadcast_to_room
    rw [hlookA]
  · unfold RoomManager.send_to_user
    split
    · rfl
    · split
      · rfl
      · rfl

/-- Witness for C10: broadcasting into the example room with every push
failing still bumps its counter by one and leaves the rest alone; an absent
code and send_to_user change nothing. -/
theorem C10_witness :
    (mgrEx.broadcast_to_room "ABC123" "sys" none (fun _ => false)).1.get_room "ABC123"
        = some { roomEx with message_count := roomEx.message_count + 1 } ∧
    (mgrEx.broadcast_to_room "ABC123" "sys" none (fun _ => false)).1.get_room "XYZ000"
        = mgrEx.get_room "XYZ000" ∧
    (mgrEx.broadcast_to_room "NOPE12" "sys" none (fun _ => false)).1 = mgrEx ∧
    (mgrEx.send_to_user "ABC123" "u1" "msg" pushOkEx).1 = mgrEx :=
  C10_broadcast_frame mgrEx "ABC123" "sys" none (fun _ => false) roomEx rfl
    "XYZ000" (by decide) mgrEx "NOPE12" "sys" none (fun _ => false) rfl
    mgrEx "ABC123" "u1" "msg" pushOkEx
